import Mathlib

/-!
# webview-rs: the cross-process bridge of `src/sys/cxx`

A shallow embedding of the browser-process page controller (`IBrowser`,
`browser.cpp`), of the flat C entry points that drive it (`webview.cpp`) and of
the render-process coordinator with its two script functions (`IRenderApp`,
`MessageSendFunction`, `MessageOnFunction`, `app.cpp` / `app.h`).

Every method becomes a function from the object's fields (and the arguments the
body reads) to an `Outcome`: the value returned, the fields afterwards and the
calls it made, in order, on the engine, on the sub-components and on the host
observer.  The engine (CEF) is not part of the repository: its objects are plain
data and each call on it is recorded as an event.
-/

namespace Webview

/-! ## Engine data -/

/-- The enum `PageState` of `webview.h`. -/
inductive PageState where
  | Load
  | LoadError
  | BeforeLoad
  | BeforeClose
  | Close
  deriving DecidableEq, Repr

/-- Numeric values of the enum `PageState` (`Load = 1` ... `Close = 5`). -/
def PageState.toInt : PageState → Int
  | .Load => 1
  | .LoadError => 2
  | .BeforeLoad => 3
  | .BeforeClose => 4
  | .Close => 5

/-- The struct `PageOptions` of `webview.h`.  Pointers are numbers (0 is null);
the `float` field is kept as its bit pattern. -/
structure PageOptions where
  window_handle : Nat
  frame_rate : Nat
  width : Nat
  height : Nat
  device_scale_factor : Nat
  is_offscreen : Bool
  deriving DecidableEq, Repr

/-- An entry of a `CefListValue`. -/
inductive CefValue where
  | null
  | string (s : String)
  deriving DecidableEq, Repr

/-- The call `CefListValue::SetSize`: truncate, or pad with null entries. -/
def CefListValue.SetSize (l : List CefValue) (size : Nat) : List CefValue :=
  l.take size ++ List.replicate (size - l.length) CefValue.null

/-- The call `CefListValue::SetString`: store a string at `index`. -/
def CefListValue.SetString (l : List CefValue) (index : Nat) (value : String) : List CefValue :=
  (CefListValue.SetSize l (max l.length (index + 1))).set index (CefValue.string value)

/-- The call `CefListValue::GetString`: the string at `index`, the empty string
when there is none. -/
def CefListValue.GetString (l : List CefValue) (index : Nat) : String :=
  match l.get? index with
  | some (CefValue.string s) => s
  | _ => ""

/-- A `CefProcessMessage`: a name and an argument list. -/
structure CefProcessMessage where
  name : String
  args : List CefValue
  deriving DecidableEq, Repr

/-- The call `CefProcessMessage::Create(name)`: a message with no argument. -/
def CefProcessMessage.Create (name : String) : CefProcessMessage :=
  { name := name, args := [] }

/-- The enum `CefProcessId`. -/
inductive CefProcessId where
  | PID_BROWSER
  | PID_RENDERER
  deriving DecidableEq, Repr

/-- The engine's browser object, as far as the bridge reads it: an identity and
what `GetHost()->GetWindowHandle()` answers (`none` is the null handle). -/
structure CefBrowser where
  identifier : Nat
  window_handle : Option Nat
  deriving DecidableEq, Repr

/-- The engine constant `ERR_ABORTED`. -/
def ERR_ABORTED : Int := -3

/-- The string a `const char*` denotes when it points at the buffer of `s`
(`std::string::c_str`, and the constructor `std::string(const char*)`): the
characters before the first NUL. -/
def c_str (s : String) : String :=
  String.mk (s.data.takeWhile (fun c => c != Char.ofNat 0))

/-- The value returned, the fields afterwards and the calls made, in order. -/
structure Outcome (σ ε α : Type) where
  ret : α
  state : σ
  effects : List ε
  deriving DecidableEq, Repr

/-! ## Browser process: the page controller (`browser.cpp`) -/

/-- A call made by the page controller: on the host observer
(`on_state_change`, `on_message`), on a sub-component (`IRender`, `IDisplay`,
`IControl`, whose bodies are outside `browser.cpp`) or on the engine.  The
argument of `on_message` is a `const char*`: the event holds the C string it
denotes. -/
inductive Effect where
  | on_state_change (state : PageState) (ctx : Nat)
  | on_message (message : String) (ctx : Nat)
  | WasResized (browser : CefBrowser)
  | IRender_SetBrowser (browser : CefBrowser)
  | IControl_SetBrowser (browser : CefBrowser)
  | IRender_IClose
  | IDisplay_IClose
  | IControl_IClose
  | ShowDevTools (browser : CefBrowser)
  | CloseDevTools (browser : CefBrowser)
  | CloseBrowser (browser : CefBrowser) (force_close : Bool)
  | SendProcessMessage (browser : CefBrowser) (target : CefProcessId) (message : CefProcessMessage)
  deriving DecidableEq, Repr

/-- The event is a callback on the host observer. -/
def Effect.isObserver : Effect → Bool
  | .on_state_change _ _ => true
  | .on_message _ _ => true
  | _ => false

/-- The event posts a process message. -/
def Effect.isPost : Effect → Bool
  | .SendProcessMessage _ _ _ => true
  | _ => false

/-- The event is a request to the engine about a browser. -/
def Effect.isEngineRequest : Effect → Bool
  | .WasResized _ => true
  | .ShowDevTools _ => true
  | .CloseDevTools _ => true
  | .CloseBrowser _ _ => true
  | .SendProcessMessage _ _ _ => true
  | _ => false

/-- The event is the destroy request `GetHost()->CloseBrowser(..)`. -/
def Effect.isCloseBrowser : Effect → Bool
  | .CloseBrowser _ _ => true
  | _ => false

/-- The fields of `IBrowser` that `browser.cpp` reads and writes.  The observer's
function pointers are fixed at construction; calls through them are events. -/
structure IBrowser where
  _settings : PageOptions
  _ctx : Nat
  _browser : Option CefBrowser
  _is_closed : Bool
  deriving DecidableEq, Repr

namespace IBrowser

/-- Modelled from the spec: the member initialisers of `browser.h`, which is
not among the sources.  The constructor of `browser.cpp` copies `settings`,
`observer` and `ctx`; a new controller has no browser handle ("absent until the
engine confirms creation") and is not closed, as the like-named members of
`display.h` and `app.h` are initialised. -/
def create (settings : PageOptions) (ctx : Nat) : IBrowser :=
  { _settings := settings, _ctx := ctx, _browser := none, _is_closed := false }

/-- The method `IBrowser::GetDisplayHandler`: `this`, or null once closed. -/
def GetDisplayHandler (self : IBrowser) : Option IBrowser :=
  if self._is_closed then none else some self

/-- The method `IBrowser::GetLifeSpanHandler`: `this`, or null once closed. -/
def GetLifeSpanHandler (self : IBrowser) : Option IBrowser :=
  if self._is_closed then none else some self

/-- The method `IBrowser::GetLoadHandler`: `this`, or null once closed. -/
def GetLoadHandler (self : IBrowser) : Option IBrowser :=
  if self._is_closed then none else some self

/-- The method `IBrowser::GetRenderHandler`: `this` for an offscreen page. -/
def GetRenderHandler (self : IBrowser) : Option IBrowser :=
  if self._settings.is_offscreen then some self else none

/-- The method `IBrowser::OnLoadStart`. -/
def OnLoadStart (self : IBrowser) : Outcome IBrowser Effect Unit :=
  if self._is_closed then
    { ret := (), state := self, effects := [] }
  else
    { ret := (), state := self,
      effects := [Effect.on_state_change PageState.BeforeLoad self._ctx] }

/-- The method `IBrowser::OnLoadEnd`. -/
def OnLoadEnd (self : IBrowser) (_httpStatusCode : Int) : Outcome IBrowser Effect Unit :=
  if self._is_closed then
    { ret := (), state := self, effects := [] }
  else
    { ret := (), state := self,
      effects := [Effect.on_state_change PageState.Load self._ctx] }

/-- The method `IBrowser::OnLoadError`.  Both branches after the notification
return: the fallback page is a comment in the source. -/
def OnLoadError (self : IBrowser) (error_code : Int) : Outcome IBrowser Effect Unit :=
  if self._is_closed then
    { ret := (), state := self, effects := [] }
  else
    let notified := [Effect.on_state_change PageState.LoadError self._ctx]
    if error_code = ERR_ABORTED then
      { ret := (), state := self, effects := notified }
    else
      { ret := (), state := self, effects := notified }

/-- The method `IBrowser::OnAfterCreated`. -/
def OnAfterCreated (self : IBrowser) (browser : CefBrowser) : Outcome IBrowser Effect Unit :=
  if self._is_closed then
    { ret := (), state := self, effects := [] }
  else
    { ret := (),
      state := { self with _browser := some browser },
      effects := [Effect.WasResized browser, Effect.IRender_SetBrowser browser,
                  Effect.IControl_SetBrowser browser] }

/-- The method `IBrowser::OnBeforeClose`. -/
def OnBeforeClose (self : IBrowser) : Outcome IBrowser Effect Unit :=
  { ret := (),
    state := { self with _browser := none },
    effects := [Effect.on_state_change PageState.BeforeClose self._ctx,
                Effect.on_state_change PageState.Close self._ctx] }

/-- The method `IBrowser::SetDevToolsOpenState`. -/
def SetDevToolsOpenState (self : IBrowser) (is_open : Bool) : Outcome IBrowser Effect Unit :=
  if self._is_closed then
    { ret := (), state := self, effects := [] }
  else
    match self._browser with
    | none => { ret := (), state := self, effects := [] }
    | some browser =>
      if is_open then
        { ret := (), state := self, effects := [Effect.ShowDevTools browser] }
      else
        { ret := (), state := self, effects := [Effect.CloseDevTools browser] }

/-- The method `IBrowser::GetHWND`: the window handle of the bound browser,
null (`none`) when no browser is bound. -/
def GetHWND (self : IBrowser) : Option Nat :=
  match self._browser with
  | some browser => browser.window_handle
  | none => none

/-- The method `IBrowser::OnProcessMessageReceived`. -/
def OnProcessMessageReceived (self : IBrowser) (message : CefProcessMessage) :
    Outcome IBrowser Effect Bool :=
  if self._is_closed then
    { ret := false, state := self, effects := [] }
  else
    match self._browser with
    | none => { ret := false, state := self, effects := [] }
    | some _ =>
      let args := message.args
      let payload := CefListValue.GetString args 0
      { ret := true, state := self,
        effects := [Effect.on_message (c_str payload) self._ctx] }

/-- The method `IBrowser::ISendMessage`. -/
def ISendMessage (self : IBrowser) (message : String) : Outcome IBrowser Effect Unit :=
  if self._is_closed then
    { ret := (), state := self, effects := [] }
  else
    match self._browser with
    | none => { ret := (), state := self, effects := [] }
    | some browser =>
      let msg := CefProcessMessage.Create "MESSAGE_TRANSPORT"
      let args := CefListValue.SetSize msg.args 1
      let args := CefListValue.SetString args 0 message
      { ret := (), state := self,
        effects := [Effect.SendProcessMessage browser CefProcessId.PID_RENDERER
                      { msg with args := args }] }

/-- The method `IBrowser::IClose`. -/
def IClose (self : IBrowser) : Outcome IBrowser Effect Unit :=
  if self._is_closed then
    { ret := (), state := self, effects := [] }
  else
    match self._browser with
    | none => { ret := (), state := self, effects := [] }
    | some browser =>
      { ret := (),
        state := { self with _browser := none, _is_closed := true },
        effects := [Effect.IRender_IClose, Effect.IDisplay_IClose, Effect.IControl_IClose,
                    Effect.CloseBrowser browser true] }

end IBrowser

/-! ## The flat C entry points of `webview.cpp` that reach the controller -/

/-- The function `page_send_message`: `ISendMessage(std::string(message))`. -/
def page_send_message (page : IBrowser) (message : String) : Outcome IBrowser Effect Unit :=
  page.ISendMessage (c_str message)

/-- The function `page_set_devtools_state`. -/
def page_set_devtools_state (page : IBrowser) (is_open : Bool) : Outcome IBrowser Effect Unit :=
  page.SetDevToolsOpenState is_open

/-- The function `page_get_hwnd`. -/
def page_get_hwnd (page : IBrowser) : Option Nat :=
  page.GetHWND

/-! ## Sequences of calls on one controller -/

/-- One call on a page controller: an engine callback or a host operation. -/
inductive Op where
  | OnAfterCreated (browser : CefBrowser)
  | OnLoadStart
  | OnLoadEnd (httpStatusCode : Int)
  | OnLoadError (error_code : Int)
  | OnBeforeClose
  | ISendMessage (message : String)
  | OnProcessMessageReceived (message : CefProcessMessage)
  | SetDevToolsOpenState (is_open : Bool)
  | IClose
  deriving DecidableEq, Repr

/-- The call is the engine's before-close callback. -/
def Op.isOnBeforeClose : Op → Bool
  | .OnBeforeClose => true
  | _ => false

/-- Perform one call: the fields afterwards and the events of the call. -/
def IBrowser.apply (self : IBrowser) : Op → IBrowser × List Effect
  | .OnAfterCreated browser => ((self.OnAfterCreated browser).state, (self.OnAfterCreated browser).effects)
  | .OnLoadStart => (self.OnLoadStart.state, self.OnLoadStart.effects)
  | .OnLoadEnd code => ((self.OnLoadEnd code).state, (self.OnLoadEnd code).effects)
  | .OnLoadError code => ((self.OnLoadError code).state, (self.OnLoadError code).effects)
  | .OnBeforeClose => (self.OnBeforeClose.state, self.OnBeforeClose.effects)
  | .ISendMessage m => ((self.ISendMessage m).state, (self.ISendMessage m).effects)
  | .OnProcessMessageReceived m =>
      ((self.OnProcessMessageReceived m).state, (self.OnProcessMessageReceived m).effects)
  | .SetDevToolsOpenState o => ((self.SetDevToolsOpenState o).state, (self.SetDevToolsOpenState o).effects)
  | .IClose => (self.IClose.state, self.IClose.effects)

/-- Perform a sequence of calls, one after the other (the engine serialises
them): the fields at the end and all the events, in order. -/
def IBrowser.run (self : IBrowser) : List Op → IBrowser × List Effect
  | [] => (self, [])
  | op :: rest =>
    let first := self.apply op
    let later := IBrowser.run first.1 rest
    (later.1, first.2 ++ later.2)

/-- A script value, as far as the bridge inspects it.  Strings are sequences of
Unicode characters; functions and other objects are known by identity only. -/
inductive V8Value where
  | undefined
  | null
  | bool (b : Bool)
  | int (i : Int)
  | string (s : String)
  | function (identifier : Nat)
  | object (identifier : Nat)
  deriving DecidableEq, Repr

/-- The call `CefV8Value::IsString`. -/
def V8Value.IsString : V8Value → Bool
  | .string _ => true
  | _ => false

/-- The call `CefV8Value::IsFunction`. -/
def V8Value.IsFunction : V8Value → Bool
  | .function _ => true
  | _ => false

/-- The call `CefV8Value::GetStringValue`: empty for a value that is no string. -/
def V8Value.GetStringValue : V8Value → String
  | .string s => s
  | _ => ""

/-- A script execution context (`CefV8Context`), known by identity. -/
structure CefV8Context where
  identifier : Nat
  deriving DecidableEq, Repr

/-- A call made by the render-process side of the bridge. -/
inductive RenderEffect where
  | Enter (context : CefV8Context)
  | ExecuteFunction (callback : V8Value) (arguments : List V8Value)
  | Exit (context : CefV8Context)
  | SendProcessMessage (browser : CefBrowser) (target : CefProcessId) (message : CefProcessMessage)
  | SetGlobal (context : CefV8Context) (name : String) (properties : List String)
  deriving DecidableEq, Repr

/-- The script function an `ExecuteFunction` event invokes, with its arguments. -/
def RenderEffect.invocation : RenderEffect → Option (V8Value × List V8Value)
  | .ExecuteFunction callback arguments => some (callback, arguments)
  | _ => none

/-- What a script function hands back to the script engine: the success flag
returned by `Execute` and the `retval` reference afterwards. -/
structure ExecuteResult where
  ok : Bool
  retval : Option V8Value
  deriving DecidableEq, Repr

/-- The fields of `MessageSendFunction` (`app.h`). -/
structure MessageSendFunction where
  _browser : Option CefBrowser
  deriving DecidableEq, Repr

namespace MessageSendFunction

/-- The constructor: `_browser = std::nullopt`. -/
def create : MessageSendFunction :=
  { _browser := none }

/-- The method `MessageSendFunction::SetBrowser`. -/
def SetBrowser (_self : MessageSendFunction) (browser : CefBrowser) : MessageSendFunction :=
  { _browser := some browser }

/-- The method `MessageSendFunction::Execute`.  The argument `retval` is the
caller's reference, returned as it is afterwards. -/
def Execute (self : MessageSendFunction) (arguments : List V8Value) (retval : Option V8Value) :
    Outcome MessageSendFunction RenderEffect ExecuteResult :=
  match self._browser with
  | none => { ret := { ok := false, retval := retval }, state := self, effects := [] }
  | some browser =>
    if arguments.length ≠ 1 then
      { ret := { ok := false, retval := retval }, state := self, effects := [] }
    else
      let arg0 := arguments.headD V8Value.undefined
      if !arg0.IsString then
        { ret := { ok := false, retval := retval }, state := self, effects := [] }
      else
        let message := arg0.GetStringValue
        let msg := CefProcessMessage.Create "MESSAGE_TRANSPORT"
        let args := CefListValue.SetSize msg.args 1
        let args := CefListValue.SetString args 0 message
        { ret := { ok := true, retval := some V8Value.undefined },
          state := self,
          effects := [RenderEffect.SendProcessMessage browser CefProcessId.PID_BROWSER
                        { msg with args := args }] }

end MessageSendFunction

/-- The fields of `MessageOnFunction` (`app.h`). -/
structure MessageOnFunction where
  _context : Option CefV8Context
  _callback : Option V8Value
  deriving DecidableEq, Repr

namespace MessageOnFunction

/-- The constructor: both fields `std::nullopt`. -/
def create : MessageOnFunction :=
  { _context := none, _callback := none }

/-- The method `MessageOnFunction::Execute`; `current` is what
`CefV8Context::GetCurrentContext()` answers during the call. -/
def Execute (self : MessageOnFunction) (current : CefV8Context) (arguments : List V8Value)
    (retval : Option V8Value) : Outcome MessageOnFunction RenderEffect ExecuteResult :=
  if arguments.length ≠ 1 then
    { ret := { ok := false, retval := retval }, state := self, effects := [] }
  else
    let arg0 := arguments.headD V8Value.undefined
    if !arg0.IsFunction then
      { ret := { ok := false, retval := retval }, state := self, effects := [] }
    else
      { ret := { ok := true, retval := some V8Value.undefined },
        state := { _context := some current, _callback := some arg0 },
        effects := [] }

/-- The method `MessageOnFunction::Call`. -/
def Call (self : MessageOnFunction) (message : String) : Outcome MessageOnFunction RenderEffect Unit :=
  match self._context with
  | none => { ret := (), state := self, effects := [] }
  | some context =>
    match self._callback with
    | none => { ret := (), state := self, effects := [] }
    | some callback =>
      { ret := (), state := self,
        effects := [RenderEffect.Enter context,
                    RenderEffect.ExecuteFunction callback [V8Value.string message],
                    RenderEffect.Exit context] }

end MessageOnFunction

/-- The fields of `IRenderApp` (`app.h`): the two script functions. -/
structure IRenderApp where
  _send_func : MessageSendFunction
  _on_func : MessageOnFunction
  deriving DecidableEq, Repr

namespace IRenderApp

/-- The member initialisers: a new function object each. -/
def create : IRenderApp :=
  { _send_func := MessageSendFunction.create, _on_func := MessageOnFunction.create }

/-- The method `IRenderApp::OnContextCreated`: bind the browser in the send
function and install the object `MessageTransport` with `send` and `on`. -/
def OnContextCreated (self : IRenderApp) (browser : CefBrowser) (context : CefV8Context) :
    Outcome IRenderApp RenderEffect Unit :=
  { ret := (),
    state := { self with _send_func := self._send_func.SetBrowser browser },
    effects := [RenderEffect.SetGlobal context "MessageTransport" ["send", "on"]] }

/-- The method `IRenderApp::OnProcessMessageReceived`. -/
def OnProcessMessageReceived (self : IRenderApp) (message : CefProcessMessage) :
    Outcome IRenderApp RenderEffect Bool :=
  let args := message.args
  let payload := CefListValue.GetString args 0
  let called := self._on_func.Call payload
  { ret := true, state := { self with _on_func := called.state }, effects := called.effects }

/-- Hand the messages of one browser's channel to the coordinator, first in
first out: the fields at the end and all the events, in order. -/
def deliver (self : IRenderApp) : List CefProcessMessage → IRenderApp × List RenderEffect
  | [] => (self, [])
  | message :: rest =>
    let first := self.OnProcessMessageReceived message
    let later := deliver first.state rest
    (later.1, first.effects ++ later.2)

end IRenderApp

/-- The process messages that the events post to the render process of
`browser`, in the order posted: the content of that browser's channel. -/
def channelToRenderer (browser : CefBrowser) : List Effect → List CefProcessMessage
  | [] => []
  | Effect.SendProcessMessage b CefProcessId.PID_RENDERER message :: rest =>
    if b = browser then message :: channelToRenderer browser rest
    else channelToRenderer browser rest
  | _ :: rest => channelToRenderer browser rest

/-- The observer's view of a list of events: the callbacks on the host
observer, in order. -/
def observerTrace (events : List Effect) : List Effect :=
  events.filter Effect.isObserver

/-! ## Sequences of calls on one render-process coordinator -/

/-- One call on the render-process coordinator: an engine callback, or the page
script calling `MessageTransport.send` or `MessageTransport.on`. -/
inductive RenderOp where
  | OnContextCreated (browser : CefBrowser) (context : CefV8Context)
  | callSend (arguments : List V8Value) (retval : Option V8Value)
  | callOn (current : CefV8Context) (arguments : List V8Value) (retval : Option V8Value)
  | OnProcessMessageReceived (message : CefProcessMessage)
  deriving DecidableEq, Repr

/-- Perform one call: the fields afterwards and the events of the call. -/
def IRenderApp.apply (self : IRenderApp) : RenderOp → IRenderApp × List RenderEffect
  | .OnContextCreated browser context =>
      ((self.OnContextCreated browser context).state, (self.OnContextCreated browser context).effects)
  | .callSend arguments retval =>
      ({ self with _send_func := (self._send_func.Execute arguments retval).state },
       (self._send_func.Execute arguments retval).effects)
  | .callOn current arguments retval =>
      ({ self with _on_func := (self._on_func.Execute current arguments retval).state },
       (self._on_func.Execute current arguments retval).effects)
  | .OnProcessMessageReceived message =>
      ((self.OnProcessMessageReceived message).state, (self.OnProcessMessageReceived message).effects)

/-- Perform a sequence of calls, one after the other (script runs on one
thread): the fields at the end and all the events, in order. -/
def IRenderApp.run (self : IRenderApp) : List RenderOp → IRenderApp × List RenderEffect
  | [] => (self, [])
  | op :: rest =>
    let first := self.apply op
    let later := IRenderApp.run first.1 rest
    (later.1, first.2 ++ later.2)

/-! ## Auxiliary facts about the page controller -/

section Auxiliary

/-- A page with plain options, used for concrete runs. -/
def settings0 : PageOptions :=
  { window_handle := 0, frame_rate := 30, width := 800, height := 600,
    device_scale_factor := 0, is_offscreen := false }

/-- A first browser object, with window handle 7. -/
def browser1 : CefBrowser :=
  { identifier := 1, window_handle := some 7 }

/-- A second browser object. -/
def browser2 : CefBrowser :=
  { identifier := 2, window_handle := some 9 }

/-- The class invariant of the controller: a closed controller holds no handle. -/
def IBrowser.ClosedImpliesAbsent (s : IBrowser) : Prop :=
  s._is_closed = true → s._browser = none

/-- In a list of events every `Close` notification directly follows a
`BeforeClose` notification with the same context. -/
def ClosePreceded (events : List Effect) : Prop :=
  ∀ (pre : List Effect) (c : Nat) (post : List Effect),
    events = pre ++ Effect.on_state_change PageState.Close c :: post →
    ∃ front, pre = front ++ [Effect.on_state_change PageState.BeforeClose c]

/-- The registration of a coordinator is whole: no context and no callback, or
a context and a callable. -/
def MessageOnFunction.Whole (f : MessageOnFunction) : Prop :=
  (f._context = none ∧ f._callback = none) ∨
  (∃ (c : CefV8Context) (g : V8Value), f._context = some c ∧ f._callback = some g ∧
    g.IsFunction = true)

theorem IBrowser.apply_invariant (s : IBrowser) (op : Op) (h : s.ClosedImpliesAbsent) :
    (s.apply op).1.ClosedImpliesAbsent := by
  obtain ⟨st, c, br, cl⟩ := s
  cases cl
  · cases br <;> cases op <;> intro hc <;>
      simp_all [IBrowser.ClosedImpliesAbsent, IBrowser.apply, IBrowser.OnAfterCreated,
        IBrowser.OnLoadStart, IBrowser.OnLoadEnd, IBrowser.OnLoadError, IBrowser.OnBeforeClose,
        IBrowser.ISendMessage, IBrowser.OnProcessMessageReceived, IBrowser.SetDevToolsOpenState,
        IBrowser.IClose]
    split at hc <;> simp_all
  · have hb : br = none := h rfl
    subst hb
    cases op <;> intro _ <;>
      simp [IBrowser.apply, IBrowser.OnAfterCreated,
        IBrowser.OnLoadStart, IBrowser.OnLoadEnd, IBrowser.OnLoadError, IBrowser.OnBeforeClose,
        IBrowser.ISendMessage, IBrowser.OnProcessMessageReceived, IBrowser.SetDevToolsOpenState,
        IBrowser.IClose]

theorem IBrowser.run_invariant (s : IBrowser) (ops : List Op) (h : s.ClosedImpliesAbsent) :
    (s.run ops).1.ClosedImpliesAbsent := by
  induction ops generalizing s with
  | nil => simpa [IBrowser.run] using h
  | cons op rest ih => simpa [IBrowser.run] using ih _ (s.apply_invariant op h)

theorem IBrowser.create_invariant (settings : PageOptions) (ctx : Nat) :
    (IBrowser.create settings ctx).ClosedImpliesAbsent := by
  intro h
  rfl

/-- In a state reached from a new controller a bound handle means not closed. -/
theorem IBrowser.reached_bound_open (settings : PageOptions) (ctx : Nat) (ops : List Op)
    (b : CefBrowser) (h : ((IBrowser.create settings ctx).run ops).1._browser = some b) :
    ((IBrowser.create settings ctx).run ops).1._is_closed = false := by
  have hinv := IBrowser.run_invariant _ ops (IBrowser.create_invariant settings ctx)
  cases hc : ((IBrowser.create settings ctx).run ops).1._is_closed with
  | false => rfl
  | true =>
    have := hinv hc
    rw [h] at this
    cases this

theorem IBrowser.IClose_of_closed (s : IBrowser) (h : s._is_closed = true) :
    s.IClose = { ret := (), state := s, effects := [] } := by
  simp [IBrowser.IClose, h]

theorem IBrowser.run_IClose_of_closed (s : IBrowser) (n : Nat) (h : s._is_closed = true) :
    s.run (List.replicate n Op.IClose) = (s, []) := by
  induction n with
  | zero => simp [IBrowser.run]
  | succ n ih => simp [List.replicate_succ, IBrowser.run, IBrowser.apply, s.IClose_of_closed h, ih]

theorem IBrowser.run_IClose_bound (s : IBrowser) (b : CefBrowser) (n : Nat)
    (hb : s._browser = some b) (hc : s._is_closed = false) :
    (s.run (List.replicate (n + 1) Op.IClose)).2
      = [Effect.IRender_IClose, Effect.IDisplay_IClose, Effect.IControl_IClose,
         Effect.CloseBrowser b true] := by
  have hstep : s.IClose = ⟨(), { s with _browser := none, _is_closed := true },
      [Effect.IRender_IClose, Effect.IDisplay_IClose, Effect.IControl_IClose,
        Effect.CloseBrowser b true]⟩ := by
    simp [IBrowser.IClose, hb, hc]
  have hrest := IBrowser.run_IClose_of_closed { s with _browser := none, _is_closed := true } n rfl
  simp [List.replicate_succ, IBrowser.run, IBrowser.apply, hstep, hrest]

theorem c_str_of_no_nul (m : String) (h : ∀ c ∈ m.data, c ≠ Char.ofNat 0) : c_str m = m := by
  have hall : m.data.takeWhile (fun c => c != Char.ofNat 0) = m.data := by
    rw [List.takeWhile_eq_self_iff]
    intro c hc
    simpa using h c hc
  unfold c_str
  rw [hall]

theorem IBrowser.ISendMessage_open (s : IBrowser) (b : CefBrowser) (m : String)
    (hc : s._is_closed = false) (hb : s._browser = some b) :
    s.ISendMessage m = ⟨(), s, [Effect.SendProcessMessage b CefProcessId.PID_RENDERER
      ⟨"MESSAGE_TRANSPORT", [CefValue.string m]⟩]⟩ := by
  simp [IBrowser.ISendMessage, hc, hb, CefProcessMessage.Create, CefListValue.SetSize,
    CefListValue.SetString]

theorem IBrowser.run_ISendMessage_open (s : IBrowser) (b : CefBrowser) (ms : List String)
    (hc : s._is_closed = false) (hb : s._browser = some b) :
    s.run (ms.map Op.ISendMessage) = (s, ms.map (fun m =>
      Effect.SendProcessMessage b CefProcessId.PID_RENDERER
        ⟨"MESSAGE_TRANSPORT", [CefValue.string m]⟩)) := by
  induction ms with
  | nil => simp [IBrowser.run]
  | cons m rest ih =>
    simp [IBrowser.run, IBrowser.apply, s.ISendMessage_open b m hc hb, ih]

theorem channelToRenderer_posts (b : CefBrowser) (ms : List String) :
    channelToRenderer b (ms.map (fun m =>
      Effect.SendProcessMessage b CefProcessId.PID_RENDERER
        ⟨"MESSAGE_TRANSPORT", [CefValue.string m]⟩))
      = ms.map (fun m => (⟨"MESSAGE_TRANSPORT", [CefValue.string m]⟩ : CefProcessMessage)) := by
  induction ms with
  | nil => simp [channelToRenderer]
  | cons m rest ih => simp [channelToRenderer, ih]

theorem IRenderApp.deliver_registered (r : IRenderApp) (c : CefV8Context) (f : V8Value)
    (ms : List String) (hc : r._on_func._context = some c) (hf : r._on_func._callback = some f) :
    (r.deliver (ms.map (fun m =>
        (⟨"MESSAGE_TRANSPORT", [CefValue.string m]⟩ : CefProcessMessage)))).2.filterMap
      RenderEffect.invocation = ms.map (fun m => (f, [V8Value.string m])) := by
  induction ms with
  | nil => simp [IRenderApp.deliver]
  | cons m rest ih =>
    have hstate : (r.OnProcessMessageReceived ⟨"MESSAGE_TRANSPORT", [CefValue.string m]⟩).state
        = r := by
      simp [IRenderApp.OnProcessMessageReceived, MessageOnFunction.Call, hc, hf]
    have heff : (r.OnProcessMessageReceived ⟨"MESSAGE_TRANSPORT", [CefValue.string m]⟩).effects
        = [RenderEffect.Enter c, RenderEffect.ExecuteFunction f [V8Value.string m],
           RenderEffect.Exit c] := by
      simp [IRenderApp.OnProcessMessageReceived, MessageOnFunction.Call, hc, hf,
        CefListValue.GetString]
    simp only [List.map_cons, IRenderApp.deliver, hstate, heff, List.filterMap_append, ih]
    simp [RenderEffect.invocation]

theorem ClosePreceded.nil : ClosePreceded [] := by
  intro pre c post h
  simp at h

theorem ClosePreceded.single (e : Effect)
    (he : ∀ c, e ≠ Effect.on_state_change PageState.Close c) : ClosePreceded [e] := by
  intro pre c post h
  cases pre with
  | nil =>
    simp at h
    exact absurd h.1 (he c)
  | cons p ps => simp at h

theorem ClosePreceded.pair (ctx : Nat) :
    ClosePreceded [Effect.on_state_change PageState.BeforeClose ctx,
      Effect.on_state_change PageState.Close ctx] := by
  intro pre c post h
  match pre with
  | [] => simp at h
  | [p] =>
    simp at h
    obtain ⟨hp, hc, _⟩ := h
    exact ⟨[], by simp [← hp, ← hc]⟩
  | _ :: _ :: _ => simp at h

theorem ClosePreceded.append (xs ys : List Effect) (hx : ClosePreceded xs)
    (hy : ClosePreceded ys) : ClosePreceded (xs ++ ys) := by
  intro pre c post h
  rcases List.append_eq_append_iff.mp h with ⟨mid, hpre, hys⟩ | ⟨mid, hxs, hmid⟩
  · obtain ⟨front, hfront⟩ := hy mid c post hys
    exact ⟨xs ++ front, by simp [hpre, hfront]⟩
  · cases mid with
    | nil =>
      simp at hmid
      obtain ⟨front, hfront⟩ := hy [] c post hmid.symm
      simp at hfront
    | cons m rest =>
      simp at hmid
      obtain ⟨hm, _⟩ := hmid
      exact hx pre c rest (by rw [hxs, ← hm])

theorem IBrowser.apply_closePreceded (s : IBrowser) (op : Op) :
    ClosePreceded (observerTrace (s.apply op).2) := by
  obtain ⟨st, c, br, cl⟩ := s
  cases cl <;> cases br <;> cases op <;>
    simp [observerTrace, IBrowser.apply, IBrowser.OnAfterCreated, IBrowser.OnLoadStart,
      IBrowser.OnLoadEnd, IBrowser.OnLoadError, IBrowser.OnBeforeClose, IBrowser.ISendMessage,
      IBrowser.OnProcessMessageReceived, IBrowser.SetDevToolsOpenState, IBrowser.IClose,
      Effect.isObserver, ClosePreceded.nil] <;>
    first
      | exact ClosePreceded.pair _
      | (apply ClosePreceded.single; intro c h; cases h)
      | (split <;> simp [Effect.isObserver, ClosePreceded.nil])

theorem IBrowser.run_closePreceded (s : IBrowser) (ops : List Op) :
    ClosePreceded (observerTrace (s.run ops).2) := by
  induction ops generalizing s with
  | nil => simpa [IBrowser.run, observerTrace] using ClosePreceded.nil
  | cons op rest ih =>
    have h := ClosePreceded.append _ _ (s.apply_closePreceded op) (ih (s.apply op).1)
    simpa [IBrowser.run, observerTrace] using h

theorem IRenderApp.apply_whole (r : IRenderApp) (op : RenderOp) (h : r._on_func.Whole) :
    (r.apply op).1._on_func.Whole := by
  cases op with
  | OnContextCreated b c => simpa [IRenderApp.apply, IRenderApp.OnContextCreated] using h
  | callSend a rv => simpa [IRenderApp.apply] using h
  | callOn cur a rv =>
    match a with
    | [] => simpa [IRenderApp.apply, MessageOnFunction.Execute] using h
    | [g] =>
      cases hg : g.IsFunction with
      | false => simpa [IRenderApp.apply, MessageOnFunction.Execute, hg] using h
      | true =>
        right
        exact ⟨cur, g, by simp [IRenderApp.apply, MessageOnFunction.Execute, hg],
          by simp [IRenderApp.apply, MessageOnFunction.Execute, hg], hg⟩
    | _ :: _ :: _ => simpa [IRenderApp.apply, MessageOnFunction.Execute] using h
  | OnProcessMessageReceived m =>
    have hcall : (r._on_func.Call (CefListValue.GetString m.args 0)).state = r._on_func := by
      unfold MessageOnFunction.Call
      split
      · rfl
      · split <;> rfl
    simpa [IRenderApp.apply, IRenderApp.OnProcessMessageReceived, hcall] using h

theorem IRenderApp.run_whole (r : IRenderApp) (ops : List RenderOp) (h : r._on_func.Whole) :
    (r.run ops).1._on_func.Whole := by
  induction ops generalizing r with
  | nil => simpa [IRenderApp.run] using h
  | cons op rest ih => simpa [IRenderApp.run] using ih _ (r.apply_whole op h)

end Auxiliary

/-! ## Closing a page -/

/-- Claim C1: Close is idempotent.  For every combination of the two fields
(handle present or absent, closed flag set or not) a second `IClose` leaves the
fields as the first one left them and makes no call at all (no engine request,
no observer notification); and on a page
whose handle is bound (a state reached from a new controller in which
`_browser` holds `b`), `n ≥ 1` consecutive `IClose` calls issue exactly one
destroy request, `CloseBrowser(true)` on `b`. -/
theorem close_idempotent :
    (∀ s : IBrowser,
      s.IClose.state.IClose.state = s.IClose.state ∧ s.IClose.state.IClose.effects = []) ∧
    (∀ (settings : PageOptions) (ctx : Nat) (ops : List Op) (b : CefBrowser) (n : Nat),
      ((IBrowser.create settings ctx).run ops).1._browser = some b → 1 ≤ n →
      ((((IBrowser.create settings ctx).run ops).1.run (List.replicate n Op.IClose)).2.filter
        Effect.isCloseBrowser) = [Effect.CloseBrowser b true]) := by
  constructor
  · intro s
    obtain ⟨st, c, br, cl⟩ := s
    cases cl <;> cases br <;> simp [IBrowser.IClose]
  · intro settings ctx ops b n hb hn
    obtain ⟨k, rfl⟩ : ∃ k, n = k + 1 := ⟨n - 1, by omega⟩
    have hopen := IBrowser.reached_bound_open settings ctx ops b hb
    rw [IBrowser.run_IClose_bound _ b k hb hopen]
    simp [Effect.isCloseBrowser]

/-- Three closes of a page created and bound to `browser1` destroy it once. -/
theorem close_idempotent_witness :
    ((IBrowser.create settings0 0).run [Op.OnAfterCreated browser1]).1._browser = some browser1 ∧
    ((((IBrowser.create settings0 0).run [Op.OnAfterCreated browser1]).1.run
        (List.replicate 3 Op.IClose)).2.filter Effect.isCloseBrowser)
      = [Effect.CloseBrowser browser1 true] :=
  ⟨rfl, close_idempotent.2 settings0 0 [Op.OnAfterCreated browser1] browser1 3 rfl (by decide)⟩

/-- Claim C2: no-op after close.  In the state reached by `IClose` from any
combination of the two fields, `ISendMessage` of any string and
`SetDevToolsOpenState` of any boolean (also through `page_send_message` and
`page_set_devtools_state`) return the same fields and make no call: no
transport message, no engine request, no observer callback.  And in every state
a page controller reaches (from a new controller, by any sequence of calls),
after `IClose` the window-handle query `GetHWND` / `page_get_hwnd` answers
null. -/
theorem noop_after_close :
    (∀ (s : IBrowser) (m : String) (o : Bool),
      s.IClose.state.ISendMessage m = ⟨(), s.IClose.state, []⟩ ∧
      s.IClose.state.SetDevToolsOpenState o = ⟨(), s.IClose.state, []⟩ ∧
      page_send_message s.IClose.state m = ⟨(), s.IClose.state, []⟩ ∧
      page_set_devtools_state s.IClose.state o = ⟨(), s.IClose.state, []⟩) ∧
    (∀ (settings : PageOptions) (ctx : Nat) (ops : List Op),
      ((IBrowser.create settings ctx).run ops).1.IClose.state.GetHWND = none ∧
      page_get_hwnd ((IBrowser.create settings ctx).run ops).1.IClose.state = none) := by
  constructor
  · intro s m o
    obtain ⟨st, c, br, cl⟩ := s
    cases cl <;> cases br <;>
      simp [IBrowser.IClose, IBrowser.ISendMessage, IBrowser.SetDevToolsOpenState,
        page_send_message, page_set_devtools_state]
  · intro settings ctx ops
    have hinv := IBrowser.run_invariant _ ops (IBrowser.create_invariant settings ctx)
    generalize ((IBrowser.create settings ctx).run ops).1 = s at hinv
    obtain ⟨st, c, br, cl⟩ := s
    cases cl
    · cases br <;> simp [IBrowser.IClose, IBrowser.GetHWND, page_get_hwnd]
    · have hb : br = none := hinv rfl
      subst hb
      simp [IBrowser.IClose, IBrowser.GetHWND, page_get_hwnd]

/-! ## Permanence of a cleared handle -/

/-- Claim C4, as stated, fails on a page whose handle is not bound yet:
`IClose` on a new controller returns at the absent-handle guard without setting
the closed flag, and a following `OnAfterCreated(browser1)` resizes, binds the
handle and changes the state; a message sent after that is posted. -/
theorem close_before_created_not_inert :
    (IBrowser.create settings0 0).IClose = ⟨(), IBrowser.create settings0 0, []⟩ ∧
    ((IBrowser.create settings0 0).IClose.state.OnAfterCreated browser1).state._browser
      = some browser1 ∧
    ((IBrowser.create settings0 0).IClose.state.OnAfterCreated browser1).state
      ≠ (IBrowser.create settings0 0).IClose.state ∧
    ((IBrowser.create settings0 0).IClose.state.OnAfterCreated browser1).effects
      = [Effect.WasResized browser1, Effect.IRender_SetBrowser browser1,
         Effect.IControl_SetBrowser browser1] ∧
    (((IBrowser.create settings0 0).IClose.state.OnAfterCreated browser1).state.ISendMessage
      "x").effects ≠ [] := by
  refine ⟨rfl, rfl, ?_, rfl, ?_⟩
  · decide
  · decide

/-- Claim C4, amended: once `IClose` has run on a controller whose handle is
bound or whose closed flag is already set, the closed flag is set and the
controller is inert: every following `OnAfterCreated`, `OnLoadStart`,
`OnLoadEnd`, `OnLoadError`, `ISendMessage`, `OnProcessMessageReceived`,
`SetDevToolsOpenState` and `IClose` returns the same fields (no handle is bound)
and makes no call, and `OnProcessMessageReceived` answers false.  `IClose` on a
controller whose handle is not bound is itself a no-op: it returns the same
fields, the closed flag as it was, and makes no call. -/
theorem inert_once_closed (s : IBrowser) :
    ((s._browser.isSome = true ∨ s._is_closed = true) →
      s.IClose.state._is_closed = true ∧
      (∀ op : Op, op.isOnBeforeClose = false →
        s.IClose.state.apply op = (s.IClose.state, [])) ∧
      (∀ m : CefProcessMessage, (s.IClose.state.OnProcessMessageReceived m).ret = false)) ∧
    (s._browser = none →
      s.IClose = ⟨(), s, []⟩ ∧ s.IClose.state._is_closed = s._is_closed) := by
  constructor
  · intro h
    obtain ⟨st, c, br, cl⟩ := s
    have hclosed : (IBrowser.IClose ⟨st, c, br, cl⟩).state._is_closed = true := by
      cases cl <;> cases br <;> simp_all [IBrowser.IClose]
    refine ⟨hclosed, ?_, ?_⟩
    · intro op hop
      cases op <;>
        simp_all [IBrowser.apply, IBrowser.OnAfterCreated, IBrowser.OnLoadStart,
          IBrowser.OnLoadEnd, IBrowser.OnLoadError, IBrowser.ISendMessage,
          IBrowser.OnProcessMessageReceived, IBrowser.SetDevToolsOpenState,
          IBrowser.IClose_of_closed, Op.isOnBeforeClose]
    · intro m
      simp [IBrowser.OnProcessMessageReceived, hclosed]
  · intro hb
    obtain ⟨st, c, br, cl⟩ := s
    cases cl <;> simp_all [IBrowser.IClose]

/-- A bound page, closed: the closed flag is set and a creation callback
changes nothing.  An offscreen page not bound yet, closed: nothing happens. -/
theorem inert_once_closed_witness :
    ((IBrowser.create settings0 0).OnAfterCreated browser1).state.IClose.state._is_closed = true ∧
    ((IBrowser.create settings0 0).OnAfterCreated browser1).state.IClose.state.apply
        (Op.OnAfterCreated browser2)
      = (((IBrowser.create settings0 0).OnAfterCreated browser1).state.IClose.state, []) ∧
    (IBrowser.create { settings0 with is_offscreen := true } 0).IClose
      = ⟨(), IBrowser.create { settings0 with is_offscreen := true } 0, []⟩ :=
  ⟨((inert_once_closed ((IBrowser.create settings0 0).OnAfterCreated browser1).state).1
      (Or.inl rfl)).1,
   ((inert_once_closed ((IBrowser.create settings0 0).OnAfterCreated browser1).state).1
      (Or.inl rfl)).2.1 (Op.OnAfterCreated browser2) rfl,
   ((inert_once_closed (IBrowser.create { settings0 with is_offscreen := true } 0)).2 rfl).1⟩

/-! ## The message transport -/

/-- Claim C5: `ISendMessage(m)` never changes the fields; on a controller that
is not closed and holds the handle `b` it posts to the render process of `b`
exactly one message, named "MESSAGE_TRANSPORT", whose argument list has size 1
and element 0 equal to `m`; on a closed controller or one without handle it
makes no call; so it posts if and only if the controller is not closed and its
handle is present.  Through `page_send_message` the same holds for every C
string. -/
theorem send_message_posts (s : IBrowser) (m : String) :
    (s.ISendMessage m).state = s ∧
    (∀ b : CefBrowser, s._is_closed = false → s._browser = some b →
      (s.ISendMessage m).effects
        = [Effect.SendProcessMessage b CefProcessId.PID_RENDERER
            ⟨"MESSAGE_TRANSPORT", [CefValue.string m]⟩]) ∧
    ((s._is_closed = true ∨ s._browser = none) → (s.ISendMessage m).effects = []) ∧
    (((s.ISendMessage m).effects.any Effect.isPost = true)
      ↔ (s._is_closed = false ∧ s._browser.isSome = true)) ∧
    ((∀ c ∈ m.data, c ≠ Char.ofNat 0) → page_send_message s m = s.ISendMessage m) := by
  refine ⟨?_, ?_, ?_, ?_, ?_⟩
  · obtain ⟨st, c, br, cl⟩ := s
    cases cl <;> cases br <;> simp [IBrowser.ISendMessage]
  · intro b hc hb
    rw [s.ISendMessage_open b m hc hb]
  · obtain ⟨st, c, br, cl⟩ := s
    cases cl <;> cases br <;> simp [IBrowser.ISendMessage]
  · obtain ⟨st, c, br, cl⟩ := s
    cases cl <;> cases br <;> simp [IBrowser.ISendMessage, Effect.isPost]
  · intro h
    simp [page_send_message, c_str_of_no_nul m h]

/-- A page bound to `browser1` sends "ping": one transport message to its
render process. -/
theorem send_message_posts_witness :
    (((IBrowser.create settings0 0).OnAfterCreated browser1).state.ISendMessage "ping").effects
      = [Effect.SendProcessMessage browser1 CefProcessId.PID_RENDERER
          ⟨"MESSAGE_TRANSPORT", [CefValue.string "ping"]⟩] :=
  (send_message_posts ((IBrowser.create settings0 0).OnAfterCreated browser1).state "ping").2.1
    browser1 rfl rfl

/-- Claim C6, as stated, fails for a payload that holds a NUL character: the
observer receives `payload.c_str()`, a `const char*`, which denotes the
characters before the first NUL.  On a page bound to `browser1` with host
context 5, the message whose argument 0 is the three characters a, NUL, b
invokes the message callback with "a". -/
theorem receive_message_truncates_at_nul :
    (((IBrowser.create settings0 5).OnAfterCreated browser1).state.OnProcessMessageReceived
        ⟨"MESSAGE_TRANSPORT", [CefValue.string "a\x00b"]⟩).effects
      = [Effect.on_message "a" 5] ∧
    (((IBrowser.create settings0 5).OnAfterCreated browser1).state.OnProcessMessageReceived
        ⟨"MESSAGE_TRANSPORT", [CefValue.string "a\x00b"]⟩).effects
      ≠ [Effect.on_message "a\x00b" 5] := by
  constructor
  · decide
  · decide

/-- Claim C6, amended: `OnProcessMessageReceived` with a message whose
argument 0 is `p` never changes the fields; on a controller that is not closed
and holds a handle it invokes the observer's message callback exactly once,
with the C string of `p` (the characters of `p` before its first NUL, which is
`p` itself when `p` holds no NUL) and the host context, and answers true;
otherwise it makes no call and answers false; so it answers true if and only if
the controller is not closed and its handle is present. -/
theorem receive_message_forwards (s : IBrowser) (name p : String) (rest : List CefValue) :
    (s.OnProcessMessageReceived ⟨name, CefValue.string p :: rest⟩).state = s ∧
    (s._is_closed = false → s._browser.isSome = true →
      (s.OnProcessMessageReceived ⟨name, CefValue.string p :: rest⟩).effects
          = [Effect.on_message (c_str p) s._ctx] ∧
      (s.OnProcessMessageReceived ⟨name, CefValue.string p :: rest⟩).ret = true) ∧
    ((s._is_closed = true ∨ s._browser = none) →
      (s.OnProcessMessageReceived ⟨name, CefValue.string p :: rest⟩).effects = [] ∧
      (s.OnProcessMessageReceived ⟨name, CefValue.string p :: rest⟩).ret = false) ∧
    ((s.OnProcessMessageReceived ⟨name, CefValue.string p :: rest⟩).ret = true
      ↔ (s._is_closed = false ∧ s._browser.isSome = true)) ∧
    ((∀ c ∈ p.data, c ≠ Char.ofNat 0) → c_str p = p) := by
  refine ⟨?_, ?_, ?_, ?_, c_str_of_no_nul p⟩
  all_goals
    obtain ⟨st, c, br, cl⟩ := s
    cases cl <;> cases br <;>
      simp [IBrowser.OnProcessMessageReceived, CefListValue.GetString]

/-- A page bound to `browser1` with host context 5 receives "pong". -/
theorem receive_message_forwards_witness :
    (((IBrowser.create settings0 5).OnAfterCreated browser1).state.OnProcessMessageReceived
        ⟨"MESSAGE_TRANSPORT", [CefValue.string "pong"]⟩).effects
      = [Effect.on_message (c_str "pong") 5] ∧
    c_str "pong" = "pong" :=
  ⟨((receive_message_forwards ((IBrowser.create settings0 5).OnAfterCreated browser1).state
      "MESSAGE_TRANSPORT" "pong" []).2.1 rfl rfl).1,
   (receive_message_forwards ((IBrowser.create settings0 5).OnAfterCreated browser1).state
      "MESSAGE_TRANSPORT" "pong" []).2.2.2.2 (by decide)⟩

/-- Claim C7: order preservation.  On a controller that is not closed and
holds the handle `b`, sending `m1..mN` with `ISendMessage` in that order leaves
the fields unchanged and posts exactly the transport messages of `m1..mN`, in
that order, to the render process of `b`; the channel of `b` thus carries
`m1..mN` in order, and handing its content, first in first out, to a
render-side coordinator with a registered context and callback `f` invokes `f`
exactly `N` times, with `m1..mN` as sole argument, in the same order. -/
theorem order_preserved (s : IBrowser) (b : CefBrowser) (ms : List String)
    (hc : s._is_closed = false) (hb : s._browser = some b) :
    (s.run (ms.map Op.ISendMessage)).1 = s ∧
    (s.run (ms.map Op.ISendMessage)).2
      = ms.map (fun m => Effect.SendProcessMessage b CefProcessId.PID_RENDERER
          ⟨"MESSAGE_TRANSPORT", [CefValue.string m]⟩) ∧
    (channelToRenderer b (s.run (ms.map Op.ISendMessage)).2).map
        (fun msg => CefListValue.GetString msg.args 0) = ms ∧
    (∀ (r : IRenderApp) (c : CefV8Context) (f : V8Value),
      r._on_func._context = some c → r._on_func._callback = some f →
      (r.deliver (channelToRenderer b (s.run (ms.map Op.ISendMessage)).2)).2.filterMap
          RenderEffect.invocation
        = ms.map (fun m => (f, [V8Value.string m])) ∧
      ((r.deliver (channelToRenderer b (s.run (ms.map Op.ISendMessage)).2)).2.filterMap
          RenderEffect.invocation).length = ms.length) := by
  rw [s.run_ISendMessage_open b ms hc hb]
  refine ⟨rfl, rfl, ?_, ?_⟩
  · rw [channelToRenderer_posts]
    simp [CefListValue.GetString, Function.comp_def]
  · intro r c f hcx hf
    rw [channelToRenderer_posts, r.deliver_registered c f ms hcx hf]
    simp

/-- Three messages sent on a bound page reach a registered callback in order. -/
theorem order_preserved_witness :
    ((⟨⟨some browser1⟩, ⟨some ⟨4⟩, some (V8Value.function 1)⟩⟩ : IRenderApp).deliver
        (channelToRenderer browser1
          (((IBrowser.create settings0 0).OnAfterCreated browser1).state.run
            (["a", "b", "c"].map Op.ISendMessage)).2)).2.filterMap RenderEffect.invocation
      = ["a", "b", "c"].map (fun m => (V8Value.function 1, [V8Value.string m])) :=
  ((order_preserved ((IBrowser.create settings0 0).OnAfterCreated browser1).state browser1
      ["a", "b", "c"] rfl rfl).2.2.2
    ⟨⟨some browser1⟩, ⟨some ⟨4⟩, some (V8Value.function 1)⟩⟩ ⟨4⟩ (V8Value.function 1) rfl rfl).1

/-! ## The script functions -/

/-- Claim C8: the send script function.  `MessageSendFunction::Execute`
returns true if and only if a browser has been bound and the argument list is
exactly one string.  When it returns false (no argument, two or more, a value
that is no string, or no bound browser) it posts nothing and leaves `retval` as
it was; when it returns true it posts toward the browser process exactly one
message, named "MESSAGE_TRANSPORT", whose argument 0 is that string, and sets
`retval` to undefined.  `SetBrowser` binds the browser. -/
theorem send_function_contract (self : MessageSendFunction) (arguments : List V8Value)
    (retval : Option V8Value) :
    ((self.Execute arguments retval).ret.ok = true
      ↔ (self._browser.isSome = true ∧ arguments.length = 1 ∧
          ∀ a ∈ arguments, a.IsString = true)) ∧
    ((self.Execute arguments retval).ret.ok = false →
      (self.Execute arguments retval).effects = [] ∧
      (self.Execute arguments retval).ret.retval = retval) ∧
    ((self.Execute arguments retval).ret.ok = true →
      ∃ (b : CefBrowser) (str : String), self._browser = some b ∧
        arguments = [V8Value.string str] ∧
        (self.Execute arguments retval).effects
          = [RenderEffect.SendProcessMessage b CefProcessId.PID_BROWSER
              ⟨"MESSAGE_TRANSPORT", [CefValue.string str]⟩] ∧
        (self.Execute arguments retval).ret.retval = some V8Value.undefined) ∧
    (self.Execute arguments retval).state = self ∧
    (∀ b : CefBrowser, (self.SetBrowser b)._browser = some b) := by
  obtain ⟨br⟩ := self
  refine ⟨?_, ?_, ?_, ?_, fun b => rfl⟩
  all_goals
    cases br with
    | none => simp [MessageSendFunction.Execute]
    | some b =>
      match arguments with
      | [] => simp [MessageSendFunction.Execute]
      | [a] =>
        cases a <;>
          simp [MessageSendFunction.Execute, V8Value.IsString, V8Value.GetStringValue,
            CefProcessMessage.Create, CefListValue.SetSize, CefListValue.SetString]
      | _ :: _ :: _ => simp [MessageSendFunction.Execute]

/-- After `SetBrowser(browser1)`, `send("pong")` posts one message to the
browser process; `send()` and `send(1)` fail. -/
theorem send_function_contract_witness :
    ((MessageSendFunction.create.SetBrowser browser1).Execute [V8Value.string "pong"] none).ret.ok
      = true ∧
    (∃ (b : CefBrowser) (str : String),
      (MessageSendFunction.create.SetBrowser browser1)._browser = some b ∧
      [V8Value.string "pong"] = [V8Value.string str] ∧
      ((MessageSendFunction.create.SetBrowser browser1).Execute
          [V8Value.string "pong"] none).effects
        = [RenderEffect.SendProcessMessage b CefProcessId.PID_BROWSER
            ⟨"MESSAGE_TRANSPORT", [CefValue.string str]⟩] ∧
      ((MessageSendFunction.create.SetBrowser browser1).Execute
          [V8Value.string "pong"] none).ret.retval = some V8Value.undefined) ∧
    ((MessageSendFunction.create.SetBrowser browser1).Execute [V8Value.int 1] none).effects
      = [] :=
  ⟨rfl,
   (send_function_contract (MessageSendFunction.create.SetBrowser browser1)
      [V8Value.string "pong"] none).2.2.1 rfl,
   ((send_function_contract (MessageSendFunction.create.SetBrowser browser1)
      [V8Value.int 1] none).2.1 rfl).1⟩

/-- Claim C9: the receive-registration script function.
`MessageOnFunction::Execute` returns true if and only if the argument list is
exactly one callable value.  When it returns true it stores the current
execution context and that callable and sets `retval` to undefined; when it
returns false (wrong argument count or a value that is not callable) the stored
context and callback, and `retval`, are as before. -/
theorem on_function_contract (self : MessageOnFunction) (current : CefV8Context)
    (arguments : List V8Value) (retval : Option V8Value) :
    ((self.Execute current arguments retval).ret.ok = true
      ↔ (arguments.length = 1 ∧ ∀ a ∈ arguments, a.IsFunction = true)) ∧
    ((self.Execute current arguments retval).ret.ok = true →
      ∃ f : V8Value, arguments = [f] ∧
        (self.Execute current arguments retval).state
          = { _context := some current, _callback := some f } ∧
        (self.Execute current arguments retval).ret.retval = some V8Value.undefined) ∧
    ((self.Execute current arguments retval).ret.ok = false →
      (self.Execute current arguments retval).state = self ∧
      (self.Execute current arguments retval).ret.retval = retval) ∧
    (self.Execute current arguments retval).effects = [] := by
  refine ⟨?_, ?_, ?_, ?_⟩
  all_goals
    match arguments with
    | [] => simp [MessageOnFunction.Execute]
    | [a] => cases a <;> simp [MessageOnFunction.Execute, V8Value.IsFunction]
    | _ :: _ :: _ => simp [MessageOnFunction.Execute]

/-- Registering function 1 in context 4 stores both; registering a string
afterwards fails and keeps them. -/
theorem on_function_contract_witness :
    (∃ f : V8Value, [V8Value.function 1] = [f] ∧
      (MessageOnFunction.create.Execute ⟨4⟩ [V8Value.function 1] none).state
        = { _context := some ⟨4⟩, _callback := some f } ∧
      (MessageOnFunction.create.Execute ⟨4⟩ [V8Value.function 1] none).ret.retval
        = some V8Value.undefined) ∧
    ((MessageOnFunction.create.Execute ⟨4⟩ [V8Value.function 1] none).state.Execute ⟨6⟩
        [V8Value.string "f"] none).state
      = (MessageOnFunction.create.Execute ⟨4⟩ [V8Value.function 1] none).state :=
  ⟨(on_function_contract MessageOnFunction.create ⟨4⟩ [V8Value.function 1] none).2.1 rfl,
   ((on_function_contract (MessageOnFunction.create.Execute ⟨4⟩ [V8Value.function 1] none).state
      ⟨6⟩ [V8Value.string "f"] none).2.2.1 rfl).1⟩

/-- Claim C10: single registration wins.  For callables `f1` and `f2`, after
the registration of `f1` (in context `c1`) and then of `f2` (in context `c2`),
both successful, every inbound message whose argument 0 is `s` makes the
coordinator enter `c2`, invoke `f2` once with `s` as sole argument and leave
`c2`, and nothing else: `f2` is the only function invoked, and `f1`, when it is
another function, is never invoked. -/
theorem second_registration_wins (app : IRenderApp) (c1 c2 : CefV8Context) (f1 f2 : V8Value)
    (r1 r2 : Option V8Value) (name s : String) (rest : List CefValue)
    (h1 : f1.IsFunction = true) (h2 : f2.IsFunction = true) :
    (app._on_func.Execute c1 [f1] r1).ret.ok = true ∧
    ((app._on_func.Execute c1 [f1] r1).state.Execute c2 [f2] r2).ret.ok = true ∧
    (IRenderApp.OnProcessMessageReceived
        { app with _on_func := ((app._on_func.Execute c1 [f1] r1).state.Execute c2 [f2] r2).state }
        ⟨name, CefValue.string s :: rest⟩).effects
      = [RenderEffect.Enter c2, RenderEffect.ExecuteFunction f2 [V8Value.string s],
         RenderEffect.Exit c2] ∧
    (IRenderApp.OnProcessMessageReceived
        { app with _on_func := ((app._on_func.Execute c1 [f1] r1).state.Execute c2 [f2] r2).state }
        ⟨name, CefValue.string s :: rest⟩).effects.filterMap RenderEffect.invocation
      = [(f2, [V8Value.string s])] ∧
    (f1 ≠ f2 → ∀ arguments : List V8Value,
      RenderEffect.ExecuteFunction f1 arguments ∉
        (IRenderApp.OnProcessMessageReceived
          { app with
            _on_func := ((app._on_func.Execute c1 [f1] r1).state.Execute c2 [f2] r2).state }
          ⟨name, CefValue.string s :: rest⟩).effects) := by
  have e1 : ∀ (self : MessageOnFunction) (c : CefV8Context) (f : V8Value) (r : Option V8Value),
      f.IsFunction = true →
      self.Execute c [f] r = ⟨⟨true, some V8Value.undefined⟩, ⟨some c, some f⟩, []⟩ := by
    intro self c f r hf
    simp [MessageOnFunction.Execute, hf]
  rw [e1 _ c1 f1 r1 h1, e1 _ c2 f2 r2 h2]
  refine ⟨rfl, rfl, ?_, ?_, ?_⟩
  · simp [IRenderApp.OnProcessMessageReceived, MessageOnFunction.Call, CefListValue.GetString]
  · simp [IRenderApp.OnProcessMessageReceived, MessageOnFunction.Call, CefListValue.GetString,
      RenderEffect.invocation]
  · intro hne arguments
    simp [IRenderApp.OnProcessMessageReceived, MessageOnFunction.Call, CefListValue.GetString]
    intro hf
    exact absurd hf hne

/-- Functions 1 and 2 registered in turn: the message "x" invokes function 2
only. -/
theorem second_registration_wins_witness :
    (IRenderApp.OnProcessMessageReceived
        { IRenderApp.create with
          _on_func := ((IRenderApp.create._on_func.Execute ⟨4⟩ [V8Value.function 1] none).state.Execute
            ⟨6⟩ [V8Value.function 2] none).state }
        ⟨"MESSAGE_TRANSPORT", CefValue.string "x" :: []⟩).effects
      = [RenderEffect.Enter ⟨6⟩, RenderEffect.ExecuteFunction (V8Value.function 2) [V8Value.string "x"],
         RenderEffect.Exit ⟨6⟩] :=
  (second_registration_wins IRenderApp.create ⟨4⟩ ⟨6⟩ (V8Value.function 1) (V8Value.function 2)
    none none "MESSAGE_TRANSPORT" "x" [] rfl rfl).2.2.1

/-! ## Inbound messages in the render process -/

/-- Claim C11: render-side `OnProcessMessageReceived`.  For every inbound
message whose argument 0 is `s` the handler answers true and leaves the
coordinator's fields as they were (nothing is kept for later delivery).  When no
callback is stored it makes no call: no context is entered, no callback is
invoked.  When a context `c` and a callback `f` are stored, its calls are
exactly: enter `c`, invoke `f` once with `s` as sole argument, exit `c`, in this
order.  A new coordinator stores no callback, and after any sequence of engine
callbacks and script calls one of the two cases applies. -/
theorem render_message_dispatch (name s : String) (rest : List CefValue) :
    (∀ app : IRenderApp,
      (app.OnProcessMessageReceived ⟨name, CefValue.string s :: rest⟩).ret = true ∧
      (app.OnProcessMessageReceived ⟨name, CefValue.string s :: rest⟩).state = app) ∧
    (∀ app : IRenderApp, app._on_func._callback = none →
      (app.OnProcessMessageReceived ⟨name, CefValue.string s :: rest⟩).effects = []) ∧
    (∀ (app : IRenderApp) (c : CefV8Context) (f : V8Value),
      app._on_func._context = some c → app._on_func._callback = some f →
      (app.OnProcessMessageReceived ⟨name, CefValue.string s :: rest⟩).effects
        = [RenderEffect.Enter c, RenderEffect.ExecuteFunction f [V8Value.string s],
           RenderEffect.Exit c]) ∧
    (IRenderApp.create.OnProcessMessageReceived ⟨name, CefValue.string s :: rest⟩).effects = [] ∧
    (∀ ops : List RenderOp,
      ((IRenderApp.create.run ops).1._on_func._callback = none ∧
        ((IRenderApp.create.run ops).1.OnProcessMessageReceived
          ⟨name, CefValue.string s :: rest⟩).effects = []) ∨
      (∃ (c : CefV8Context) (f : V8Value),
        (IRenderApp.create.run ops).1._on_func._context = some c ∧
        (IRenderApp.create.run ops).1._on_func._callback = some f ∧
        f.IsFunction = true ∧
        ((IRenderApp.create.run ops).1.OnProcessMessageReceived
          ⟨name, CefValue.string s :: rest⟩).effects
          = [RenderEffect.Enter c, RenderEffect.ExecuteFunction f [V8Value.string s],
             RenderEffect.Exit c])) := by
  have hnone : ∀ app : IRenderApp, app._on_func._callback = none →
      (app.OnProcessMessageReceived ⟨name, CefValue.string s :: rest⟩).effects = [] := by
    intro app h
    obtain ⟨sf, ⟨cx, cb⟩⟩ := app
    cases cx <;> simp_all [IRenderApp.OnProcessMessageReceived, MessageOnFunction.Call]
  have hsome : ∀ (app : IRenderApp) (c : CefV8Context) (f : V8Value),
      app._on_func._context = some c → app._on_func._callback = some f →
      (app.OnProcessMessageReceived ⟨name, CefValue.string s :: rest⟩).effects
        = [RenderEffect.Enter c, RenderEffect.ExecuteFunction f [V8Value.string s],
           RenderEffect.Exit c] := by
    intro app c f hc hf
    simp [IRenderApp.OnProcessMessageReceived, MessageOnFunction.Call, hc, hf,
      CefListValue.GetString]
  refine ⟨?_, hnone, hsome, hnone _ rfl, ?_⟩
  · intro app
    obtain ⟨sf, ⟨cx, cb⟩⟩ := app
    cases cx <;> cases cb <;> simp [IRenderApp.OnProcessMessageReceived, MessageOnFunction.Call]
  · intro ops
    have hwhole : (IRenderApp.create.run ops).1._on_func.Whole :=
      IRenderApp.run_whole _ ops (Or.inl ⟨rfl, rfl⟩)
    rcases hwhole with ⟨_, hcb⟩ | ⟨c, f, hc, hf, hfun⟩
    · exact Or.inl ⟨hcb, hnone _ hcb⟩
    · exact Or.inr ⟨c, f, hc, hf, hfun, hsome _ c f hc hf⟩

/-- A coordinator on which the script registered function 1 in context 4
receives "ping": enter, one invocation, exit. -/
theorem render_message_dispatch_witness :
    ((IRenderApp.create.run [RenderOp.callOn ⟨4⟩ [V8Value.function 1] none]).1.OnProcessMessageReceived
        ⟨"MESSAGE_TRANSPORT", CefValue.string "ping" :: []⟩).effects
      = [RenderEffect.Enter ⟨4⟩, RenderEffect.ExecuteFunction (V8Value.function 1)
          [V8Value.string "ping"], RenderEffect.Exit ⟨4⟩] :=
  (render_message_dispatch "MESSAGE_TRANSPORT" "ping" []).2.2.1
    (IRenderApp.create.run [RenderOp.callOn ⟨4⟩ [V8Value.function 1] none]).1 ⟨4⟩
    (V8Value.function 1) rfl rfl

/-! ## Lifecycle notifications -/

/-- Claim C12: load-error reporting.  For every error code, `ERR_ABORTED`
included, `OnLoadError` leaves the fields unchanged; on a controller that is not
closed its calls are exactly one `LoadError` state-change notification with the
host context (no navigation to a fallback page, no other call); on a closed
controller it makes no call.  The abort code is reported like every other. -/
theorem load_error_reports (s : IBrowser) (error_code : Int) :
    (s.OnLoadError error_code).state = s ∧
    (s._is_closed = false →
      (s.OnLoadError error_code).effects
        = [Effect.on_state_change PageState.LoadError s._ctx]) ∧
    (s._is_closed = true → (s.OnLoadError error_code).effects = []) ∧
    s.OnLoadError ERR_ABORTED = s.OnLoadError error_code := by
  obtain ⟨st, c, br, cl⟩ := s
  cases cl <;> simp [IBrowser.OnLoadError]

/-- A new page whose load is aborted: one `LoadError` notification. -/
theorem load_error_reports_witness :
    ((IBrowser.create settings0 5).OnLoadError ERR_ABORTED).effects
      = [Effect.on_state_change PageState.LoadError 5] :=
  (load_error_reports (IBrowser.create settings0 5) ERR_ABORTED).2.1 rfl

/-- Claim C13: `OnBeforeClose`.  In every state of the controller its calls are
exactly the two state-change notifications `BeforeClose` then `Close`, one
directly after the other, with the host context, and afterwards the handle is
absent (the closed flag is as before).  Consequently, in the observer's trace of
every sequence of calls from every state, each `Close` notification directly
follows a `BeforeClose` notification. -/
theorem before_close_notifies :
    (∀ s : IBrowser,
      s.OnBeforeClose.effects
        = [Effect.on_state_change PageState.BeforeClose s._ctx,
           Effect.on_state_change PageState.Close s._ctx] ∧
      s.OnBeforeClose.state._browser = none ∧
      s.OnBeforeClose.state._is_closed = s._is_closed) ∧
    (∀ (s : IBrowser) (ops : List Op) (pre : List Effect) (c : Nat) (post : List Effect),
      observerTrace (s.run ops).2 = pre ++ Effect.on_state_change PageState.Close c :: post →
      ∃ front, pre = front ++ [Effect.on_state_change PageState.BeforeClose c]) := by
  constructor
  · intro s
    exact ⟨rfl, rfl, rfl⟩
  · intro s ops pre c post h
    exact IBrowser.run_closePreceded s ops pre c post h

/-- A page that is created, starts a load and is destroyed by the engine: the
`Close` notification follows the `BeforeClose` notification. -/
theorem before_close_notifies_witness :
    observerTrace ((IBrowser.create settings0 5).run
        [Op.OnAfterCreated browser1, Op.OnLoadStart, Op.OnBeforeClose]).2
      = [Effect.on_state_change PageState.BeforeLoad 5,
          Effect.on_state_change PageState.BeforeClose 5]
        ++ Effect.on_state_change PageState.Close 5 :: [] ∧
    ∃ front, [Effect.on_state_change PageState.BeforeLoad 5,
        Effect.on_state_change PageState.BeforeClose 5]
      = front ++ [Effect.on_state_change PageState.BeforeClose 5] :=
  ⟨rfl, before_close_notifies.2 (IBrowser.create settings0 5)
    [Op.OnAfterCreated browser1, Op.OnLoadStart, Op.OnBeforeClose]
    [Effect.on_state_change PageState.BeforeLoad 5,
      Effect.on_state_change PageState.BeforeClose 5] 5 [] rfl⟩

/-! ## The class invariant and the handler getters -/

/-- Claim C14: a new controller has no handle and is not closed; every call
(`OnAfterCreated`, the load callbacks, `OnBeforeClose`, `ISendMessage`,
`OnProcessMessageReceived`, `SetDevToolsOpenState`, `IClose`) preserves the
predicate "closed flag set implies handle absent"; hence the predicate holds in
every state reached from a new controller by any sequence of calls. -/
theorem closed_implies_absent :
    (∀ (settings : PageOptions) (ctx : Nat),
      (IBrowser.create settings ctx)._browser = none ∧
      (IBrowser.create settings ctx)._is_closed = false) ∧
    (∀ (s : IBrowser) (op : Op), (s._is_closed = true → s._browser = none) →
      ((s.apply op).1._is_closed = true → (s.apply op).1._browser = none)) ∧
    (∀ (settings : PageOptions) (ctx : Nat) (ops : List Op),
      ((IBrowser.create settings ctx).run ops).1._is_closed = true →
      ((IBrowser.create settings ctx).run ops).1._browser = none) := by
  refine ⟨fun _ _ => ⟨rfl, rfl⟩, ?_, ?_⟩
  · intro s op h
    exact IBrowser.apply_invariant s op h
  · intro settings ctx ops
    exact IBrowser.run_invariant _ ops (IBrowser.create_invariant settings ctx)

/-- A page that is created, bound and closed: the closed flag is set and the
handle is absent. -/
theorem closed_implies_absent_witness :
    ((IBrowser.create settings0 0).run [Op.OnAfterCreated browser1, Op.IClose]).1._is_closed
      = true ∧
    ((IBrowser.create settings0 0).run [Op.OnAfterCreated browser1, Op.IClose]).1._browser
      = none :=
  ⟨rfl, closed_implies_absent.2.2 settings0 0 [Op.OnAfterCreated browser1, Op.IClose] rfl⟩

/-- Claim C15: `GetDisplayHandler`, `GetLifeSpanHandler` and `GetLoadHandler`
each return the controller itself when the closed flag is unset and no handler
(null) when it is set, so the controller offers itself in these three roles if
and only if it is not closed; hence in the state reached by `IClose` on a
controller whose handle was bound the closed flag is set and all three return
null: the engine obtains no life-span handler for the `BeforeClose` / `Close`
notifications. -/
theorem handlers_iff_open (s : IBrowser) :
    (s._is_closed = false →
      s.GetDisplayHandler = some s ∧ s.GetLifeSpanHandler = some s ∧
      s.GetLoadHandler = some s) ∧
    (s._is_closed = true →
      s.GetDisplayHandler = none ∧ s.GetLifeSpanHandler = none ∧ s.GetLoadHandler = none) ∧
    (s.GetDisplayHandler.isSome = true ↔ s._is_closed = false) ∧
    (s.GetLifeSpanHandler.isSome = true ↔ s._is_closed = false) ∧
    (s.GetLoadHandler.isSome = true ↔ s._is_closed = false) ∧
    (∀ b : CefBrowser, s._browser = some b →
      s.IClose.state._is_closed = true ∧
      s.IClose.state.GetLifeSpanHandler = none ∧
      s.IClose.state.GetDisplayHandler = none ∧
      s.IClose.state.GetLoadHandler = none) := by
  obtain ⟨st, c, br, cl⟩ := s
  cases cl <;> cases br <;>
    simp [IBrowser.GetDisplayHandler, IBrowser.GetLifeSpanHandler, IBrowser.GetLoadHandler,
      IBrowser.IClose]

/-- A page bound to `browser1` and closed offers no life-span handler. -/
theorem handlers_iff_open_witness :
    ((IBrowser.create settings0 0).OnAfterCreated browser1).state.IClose.state.GetLifeSpanHandler
      = none ∧
    ((IBrowser.create settings0 0).OnAfterCreated browser1).state.GetLifeSpanHandler
      = some ((IBrowser.create settings0 0).OnAfterCreated browser1).state :=
  ⟨((handlers_iff_open ((IBrowser.create settings0 0).OnAfterCreated browser1).state).2.2.2.2.2
      browser1 rfl).2.1,
   ((handlers_iff_open ((IBrowser.create settings0 0).OnAfterCreated browser1).state).1 rfl).2.1⟩

end Webview
